import Mathlib

/-!
Shallow embedding of the messaging core of the `chat_api` repository
(`src/index.js` socket handlers, `src/routes/chat.js` and its optimized
revision, `src/models/Message.js`), together with theorems settling the
frozen claims about the natural-language specification.

Identifiers are embedded as naturals (MongoDB ObjectId strings are opaque
identity tokens; only equality matters to the code under study).  JavaScript
strings are embedded as Lean `String`, with the string operations the code
uses (`trim`, `substring`, `length`, emptiness) translated explicitly over
the character list so that every definition evaluates by kernel reduction.
-/

abbrev UserId := Nat
abbrev SocketId := Nat

/-- Embedding of JavaScript `String.prototype.trim()`: remove leading and
trailing whitespace. -/
def jsTrim (s : String) : String :=
  String.mk (((s.data.dropWhile Char.isWhitespace).reverse.dropWhile Char.isWhitespace).reverse)

/-- Embedding of JavaScript `str.substring(0, n)`. -/
def jsSubstring (s : String) (n : Nat) : String :=
  String.mk (s.data.take n)

/-- Embedding of JavaScript `str.length` (code-unit count; for the contents
considered here, character count). -/
def jsLength (s : String) : Nat :=
  s.data.length

/-- Embedding of JavaScript string falsiness / emptiness tests. -/
def jsIsEmpty (s : String) : Bool :=
  s.data.isEmpty

/-- User record, the fields of `src/models/User.js` the messaging core reads:
the identity, the display name used in notification summaries, the admin
flag, and the optional FCM notification token. -/
structure UserRec where
  id : UserId
  firstName : String
  lastName : String
  isAdmin : Bool
  fcmToken : Option String
deriving DecidableEq

/-- Message document as the socket handlers construct and mutate it
(`new Message({ sender, receiver, content, isDelivered, isRead, ... })`,
plus the `deliveredAt` / `readAt` assignments).  This is the handler-level
view; which of these fields the Mongoose schema actually declares is modelled
separately below. -/
structure Msg where
  sender : UserId
  receiver : UserId
  content : String
  isDelivered : Bool
  deliveredAt : Option Nat
  isRead : Bool
  readAt : Option Nat
  createdAt : Nat
deriving DecidableEq

/-- One declared path of a Mongoose schema. -/
structure SchemaField where
  name : String
  required : Bool
deriving DecidableEq

/-- First revision of `messageSchema` (src/models/Message.js lines 3-23):
sender, receiver, content (required, maxlength 1000), createdAt (default). -/
def messageSchemaV1 : List SchemaField :=
  [⟨"sender", true⟩, ⟨"receiver", true⟩, ⟨"content", true⟩, ⟨"createdAt", false⟩]

/-- Second revision of `messageSchema` (src/models/Message.js lines 31-60):
sender, receiver, content (required, base64 validator), createdAt (default). -/
def messageSchemaV2 : List SchemaField :=
  [⟨"sender", true⟩, ⟨"receiver", true⟩, ⟨"content", true⟩, ⟨"createdAt", false⟩]

/-- Field names declared by the first schema revision. -/
def declaredFieldsV1 : List String := messageSchemaV1.map (·.name)

/-- Field names declared by the second schema revision. -/
def declaredFieldsV2 : List String := messageSchemaV2.map (·.name)

/-- Delivery and read-state fields the send and mark-read handlers assign on
message documents (`isDelivered`, `deliveredAt`, `isRead`, `readAt`). -/
def handlerStateFields : List String :=
  ["isDelivered", "deliveredAt", "isRead", "readAt"]

/-- One character of the class `[A-Za-z0-9+/=]` from the second revision's
content validator (src/models/Message.js lines 48-52).  `Char.isAlpha` and
`Char.isDigit` are exactly the ASCII ranges A-Z, a-z and 0-9. -/
def base64Char (c : Char) : Bool :=
  c.isAlpha || c.isDigit || c = '+' || c = '/' || c = '='

/-- Embedding of `/^[A-Za-z0-9+/=]+$/.test(v)`: one or more characters, every
one of them in the class. -/
def base64RegexTest (v : String) : Bool :=
  !v.data.isEmpty && v.data.all base64Char

/-- Whether the second schema revision admits a document for saving: the
required content must be present (nonempty) and pass the base64 validator.
The validator alone already forces nonemptiness. -/
def saveAllowedV2 (m : Msg) : Bool :=
  base64RegexTest m.content

/-- In-memory connection-lifecycle state of `src/index.js`:
`connectedUsers` (Map userId -> socketId), `adminSockets` (Set socketId),
plus the socket.io room memberships created by `socket.join(userId)` and the
per-socket `socket.userId` assignment which the disconnect handler reads. -/
structure Presence where
  connectedUsers : List (UserId × SocketId)
  adminSockets : List SocketId
  rooms : List (SocketId × UserId)
  socketUser : List (SocketId × UserId)
deriving DecidableEq

/-- Lookup in an association list (Map.get). -/
def alistLookup (l : List (Nat × Nat)) (k : Nat) : Option Nat :=
  (l.find? (fun p => p.1 == k)).map (·.2)

/-- Removal of a key from an association list (Map.delete). -/
def alistErase (l : List (Nat × Nat)) (k : Nat) : List (Nat × Nat) :=
  l.filter (fun p => p.1 != k)

/-- Insert-or-replace in an association list (Map.set). -/
def alistSet (l : List (Nat × Nat)) (k v : Nat) : List (Nat × Nat) :=
  alistErase l k ++ [(k, v)]

/-- Set.add on a list-modelled set: append if absent. -/
def setAdd (l : List Nat) (x : Nat) : List Nat :=
  if x ∈ l then l else l ++ [x]

/-- The empty lifecycle state (process start). -/
def Presence.empty : Presence := ⟨[], [], [], []⟩

/-- The `socket.on('authenticate')` success path (src/index.js lines 208-227,
identical in all three revisions), entered once the token verified and the
user record was found: evict a previous socket of the same user from
`adminSockets`, bind the user to the new socket in `connectedUsers`, record
`socket.userId`, join the socket to the user's room, and register admins. -/
def authenticate (st : Presence) (u : UserRec) (sid : SocketId) : Presence :=
  let existing := alistLookup st.connectedUsers u.id
  let admins :=
    match existing with
    | some prev => if prev != sid then st.adminSockets.filter (· != prev) else st.adminSockets
    | none => st.adminSockets
  { connectedUsers := alistSet st.connectedUsers u.id sid
    adminSockets := if u.isAdmin then setAdd admins sid else admins
    rooms := if (sid, u.id) ∈ st.rooms then st.rooms else st.rooms ++ [(sid, u.id)]
    socketUser := alistSet st.socketUser sid u.id }

/-- The `socket.on('disconnect')` handler (src/index.js lines 579-585, 2543
and 3231-3236, identical in all three revisions): if the socket had
authenticated, delete its user's `connectedUsers` entry unconditionally and
drop the socket from `adminSockets`.  The socket.io runtime additionally
removes the closed socket from its rooms. -/
def disconnect (st : Presence) (sid : SocketId) : Presence :=
  match alistLookup st.socketUser sid with
  | none => st
  | some uid =>
    { connectedUsers := alistErase st.connectedUsers uid
      adminSockets := st.adminSockets.filter (· != sid)
      rooms := st.rooms.filter (fun p => p.1 != sid)
      socketUser := alistErase st.socketUser sid }

/-- Presence lookup used for routing: `connectedUsers.get(userId)`. -/
def directRoute (st : Presence) (uid : UserId) : Option SocketId :=
  alistLookup st.connectedUsers uid

/-- Sockets currently joined to a user's room: the recipients of a room-based
emit `io.to(userId.toString()).emit(...)`. -/
def roomMembers (st : Presence) (uid : UserId) : List SocketId :=
  (st.rooms.filter (fun p => p.2 == uid)).map (·.1)

/-- Target sockets of the read receipt emitted by the HTTP
`POST /mark-as-read` route (src/routes/chat.js lines 172-179):
`io.to(senderId).emit('messages_read', ...)`, a room-based emit. -/
def markAsReadHttpReceiptTargets (st : Presence) (senderId : UserId) : List SocketId :=
  roomMembers st senderId

/-- Socket emissions the handlers produce, tagged with the target socket. -/
inductive Emission where
  | newMessage (target : SocketId) (m : Msg)
  | messageDelivered (target : SocketId) (deliveredAt : Nat)
  | unreadCountUpdate (target : SocketId) (senderId : UserId) (count : Nat)
  | messageRead (target : SocketId) (readBy : UserId) (count : Nat)
  | messagesMarkedRead (target : SocketId) (count : Nat)
  | errorEmit (target : SocketId) (text : String)
deriving DecidableEq

/-- One invocation of `sendFCMNotification` (the external notification
dispatcher): the receiver's registered token, the notification title, and the
body text. -/
structure FcmCall where
  token : String
  title : String
  body : String
deriving DecidableEq

/-- Environment a send or mark-read handler runs in: the user collection, the
lifecycle state, the message store, the clock, and persistence availability.
`fcmOk` is the outcome of the notification dispatch; `sendFCMNotification`
catches every error internally (src/index.js lines 74-96), so no handler
reads it. -/
structure Env where
  users : List UserRec
  presence : Presence
  messages : List Msg
  now : Nat
  saveOk : Bool
  fcmOk : Bool
deriving DecidableEq

/-- `User.findById` over the embedded collection. -/
def findUser (users : List UserRec) (uid : UserId) : Option UserRec :=
  users.find? (fun u => u.id == uid)

/-- Observable outcome of one `send_message` handler run. -/
structure SendResult where
  emissions : List Emission
  fcmCalls : List FcmCall
  messages : List Msg
deriving DecidableEq

/-- Precondition checks shared verbatim by both `send_message` revisions
(src/index.js lines 254-283 and 927-956): content present, nonempty after
trimming, at most 1000 characters, not a self-send, receiver exists. -/
inductive SendCheck where
  | ok (receiver : UserRec)
  | fail (err : String)
deriving DecidableEq

/-- The validation chain of the `send_message` handlers, in source order. -/
def sendChecks (users : List UserRec) (senderId receiverId : UserId)
    (content : String) : SendCheck :=
  if jsIsEmpty content then .fail "Receiver ID and content are required"
  else if jsIsEmpty (jsTrim content) then .fail "Content must be a non-empty string"
  else if jsLength content > 1000 then .fail "Message content too long (max 1000 characters)"
  else if receiverId == senderId then .fail "Cannot send message to yourself"
  else
    match findUser users receiverId with
    | none => .fail "Receiver not found"
    | some receiver => .ok receiver

/-- `Message.countDocuments({ receiver, sender, isRead: false })`. -/
def countUnread (msgs : List Msg) (senderId receiverId : UserId) : Nat :=
  (msgs.filter (fun m => m.sender == senderId && m.receiver == receiverId && !m.isRead)).length

/-- First revision of the `send_message` handler (src/index.js lines
247-341).  The message is saved with `isDelivered: false` (`await`ed: a save
failure is caught and surfaces as an error emission, nothing else happens),
then emitted to the sender; if the receiver has a `connectedUsers` entry it
is emitted to the receiver, flipped to delivered and re-saved, a delivery
confirmation goes to the sender and an unread count to the receiver;
otherwise an FCM notification is attempted, guarded by
`receiver.fcmToken && sender`. -/
def sendMessageV1 (env : Env) (callerSid : SocketId) (senderId receiverId : UserId)
    (content : String) : SendResult :=
  match sendChecks env.users senderId receiverId content with
  | .fail e => { emissions := [.errorEmit callerSid e], fcmCalls := [], messages := env.messages }
  | .ok receiver =>
    if env.saveOk then
      let msg : Msg :=
        { sender := senderId, receiver := receiverId, content := jsTrim content
          isDelivered := false, deliveredAt := none, isRead := false, readAt := none
          createdAt := env.now }
      match directRoute env.presence receiverId with
      | some rsid =>
        let msg2 : Msg := { msg with isDelivered := true, deliveredAt := some env.now }
        let store2 := env.messages ++ [msg2]
        let unread := countUnread store2 senderId receiverId
        { emissions :=
            [.newMessage callerSid msg, .newMessage rsid msg,
             .messageDelivered callerSid env.now,
             .unreadCountUpdate rsid senderId unread]
          fcmCalls := []
          messages := store2 }
      | none =>
        let fcm :=
          match receiver.fcmToken, findUser env.users senderId with
          | some tok, some s =>
            [⟨tok, "New message from " ++ s.firstName ++ " " ++ s.lastName,
              jsSubstring (jsTrim content) 100⟩]
          | _, _ => []
        { emissions := [.newMessage callerSid msg]
          fcmCalls := fcm
          messages := env.messages ++ [msg] }
    else
      { emissions := [.errorEmit callerSid "Failed to send message"]
        fcmCalls := [], messages := env.messages }

/-- Optimized revision of the `send_message` handler (src/index.js lines
920-1050, repeated at 2851): the message payload (already carrying
`isDelivered` reflecting presence) is emitted to both parties before the
database save, the save is fire-and-forget (`message.save().catch(...)`
emitting only a follow-up error), and the FCM notification is attempted
whenever `receiver.fcmToken` is set, regardless of presence. -/
def sendMessageOpt (env : Env) (callerSid : SocketId) (senderId receiverId : UserId)
    (content : String) : SendResult :=
  match sendChecks env.users senderId receiverId content with
  | .fail e => { emissions := [.errorEmit callerSid e], fcmCalls := [], messages := env.messages }
  | .ok receiver =>
    let trimmed := jsTrim content
    let rsid? := directRoute env.presence receiverId
    let isOnline := rsid?.isSome
    let msg : Msg :=
      { sender := senderId, receiver := receiverId, content := trimmed
        isDelivered := isOnline, deliveredAt := if isOnline then some env.now else none
        isRead := false, readAt := none, createdAt := env.now }
    let store := if env.saveOk then env.messages ++ [msg] else env.messages
    let emRecv :=
      match rsid? with
      | some rsid =>
        [Emission.newMessage rsid msg, .messageDelivered callerSid env.now,
         .unreadCountUpdate rsid senderId (countUnread store senderId receiverId)]
      | none => []
    let emSave :=
      if env.saveOk then []
      else [Emission.errorEmit callerSid "Message sent but failed to save"]
    let fcm :=
      match receiver.fcmToken, findUser env.users senderId with
      | some tok, some s =>
        [⟨tok, s.firstName ++ " " ++ s.lastName, jsSubstring trimmed 100⟩]
      | _, _ => []
    { emissions := [Emission.newMessage callerSid msg] ++ emRecv ++ emSave
      fcmCalls := fcm
      messages := store }

/-- Filter of the read-receipt batch update:
`{ sender: senderId, receiver: readerId, isRead: false }`. -/
def isUnreadFrom (m : Msg) (senderId readerId : UserId) : Bool :=
  m.sender == senderId && m.receiver == readerId && !m.isRead

/-- Observable outcome of one mark-read handler run. -/
structure MarkReadResult where
  modifiedCount : Nat
  emissions : List Emission
  messages : List Msg
deriving DecidableEq

/-- First revision of the `mark_messages_read` handler (src/index.js lines
346-404): one conditional `updateMany` whose filter requires `isRead: false`,
then a read event to the counterpart if online, a recomputed unread count and
a confirmation to the caller. -/
def markReadV1 (env : Env) (callerSid : SocketId) (readerId senderId : UserId) :
    MarkReadResult :=
  let count := (env.messages.filter (fun m => isUnreadFrom m senderId readerId)).length
  let msgs :=
    env.messages.map (fun m =>
      if isUnreadFrom m senderId readerId then
        { m with isRead := true, readAt := some env.now }
      else m)
  let emSender :=
    match directRoute env.presence senderId with
    | some ssid => [Emission.messageRead ssid readerId count]
    | none => []
  let unreadAfter := (msgs.filter (fun m => isUnreadFrom m senderId readerId)).length
  { modifiedCount := count
    emissions :=
      emSender ++
      [.unreadCountUpdate callerSid senderId unreadAfter,
       .messagesMarkedRead callerSid count]
    messages := msgs }

/-- Optimized revision of the `mark_messages_read` handler (src/index.js
lines 1052-1125): immediate zero-count confirmations to the caller and to
the online counterpart, then the same conditional `updateMany`; the accurate
counts are re-emitted only when `modifiedCount > 0`, and an unread count of
literal `0` always goes to the caller afterwards. -/
def markReadOpt (env : Env) (callerSid : SocketId) (readerId senderId : UserId) :
    MarkReadResult :=
  let ssid? := directRoute env.presence senderId
  let emImmediate :=
    [Emission.messagesMarkedRead callerSid 0] ++
    (match ssid? with
     | some ssid => [Emission.messageRead ssid readerId 0]
     | none => [])
  let count := (env.messages.filter (fun m => isUnreadFrom m senderId readerId)).length
  let msgs :=
    env.messages.map (fun m =>
      if isUnreadFrom m senderId readerId then
        { m with isRead := true, readAt := some env.now }
      else m)
  let emAfter :=
    (if count > 0 then
      [Emission.messagesMarkedRead callerSid count] ++
      (match ssid? with
       | some ssid => [Emission.messageRead ssid readerId count]
       | none => [])
    else []) ++
    [Emission.unreadCountUpdate callerSid senderId 0]
  { modifiedCount := count
    emissions := emImmediate ++ emAfter
    messages := msgs }

/-- The atomic batch transition shared by the socket handlers and the first
HTTP `POST /mark-as-read` route: one `updateMany` whose filter itself
requires `isRead: false`, returning `modifiedCount`. -/
def markReadBatchAtomic (msgs : List Msg) (senderId readerId : UserId) (now : Nat) :
    Nat × List Msg :=
  ((msgs.filter (fun m => isUnreadFrom m senderId readerId)).length,
   msgs.map (fun m =>
     if isUnreadFrom m senderId readerId then
       { m with isRead := true, readAt := some now }
     else m))

/-- Read phase of the optimized HTTP `POST /mark-as-read` route
(src/unnamed/part_002 lines 196-201): fetch the ids of the currently unread
messages.  Message identity is positional (the store neither reorders nor
deletes during the operation). -/
def findUnreadIds (msgs : List Msg) (senderId readerId : UserId) : List Nat :=
  (msgs.enum.filter (fun im => isUnreadFrom im.2 senderId readerId)).map (·.1)

/-- Write phase of the optimized HTTP `POST /mark-as-read` route
(src/unnamed/part_002 lines 229-234): `updateMany({ _id: { $in: ids } })`
with no `isRead` condition in the filter. -/
def updateByIds (msgs : List Msg) (ids : List Nat) (now : Nat) : List Msg :=
  msgs.mapIdx (fun i m =>
    if i ∈ ids then { m with isRead := true, readAt := some now } else m)

/-- The optimized HTTP mark-as-read responds with the count found in the read
phase (src/unnamed/part_002 line 210), before the write phase runs. -/
def markReadFindThenUpdateCount (msgs : List Msg) (senderId readerId : UserId) : Nat :=
  (findUnreadIds msgs senderId readerId).length

/-- Interleaving of two concurrent optimized HTTP mark-as-read calls over the
same (reader, counterpart) pair in which both read phases run before either
write phase: returns both reported counts and the final store. -/
def markReadRace (msgs : List Msg) (senderId readerId : UserId) (now : Nat) :
    Nat × Nat × List Msg :=
  let ids1 := findUnreadIds msgs senderId readerId
  let ids2 := findUnreadIds msgs senderId readerId
  let st1 := updateByIds msgs ids1 now
  let st2 := updateByIds st1 ids2 now
  (ids1.length, ids2.length, st2)

/-- Deduplication with JavaScript `[...new Set(xs)]` semantics: iterate in
order, keeping the first occurrence of each element. -/
def jsDedup (l : List Nat) : List Nat :=
  l.foldl setAdd []

/-- The distinct counterpart ids of the `GET /conversations` routes
(src/routes/chat.js lines 194-201 and src/unnamed/part_002 lines 244-252):
the receivers of the principal's sent messages together with the senders of
its received messages, deduplicated. -/
def counterpartIds (msgs : List Msg) (p : UserId) : List UserId :=
  jsDedup
    ((msgs.filter (fun m => m.sender == p)).map (·.receiver) ++
     (msgs.filter (fun m => m.receiver == p)).map (·.sender))

/-- The `$or` filter of the pair queries: message between `p` and `q` in
either direction. -/
def betweenPair (p q : UserId) (m : Msg) : Bool :=
  (m.sender == p && m.receiver == q) || (m.sender == q && m.receiver == p)

/-- `Message.findOne({...pair...}).sort({ createdAt: -1 })`: the most recent
message between the pair (earliest in store order on a timestamp tie). -/
def lastMessageBetween (msgs : List Msg) (p q : UserId) : Option Msg :=
  (msgs.filter (betweenPair p q)).foldl
    (fun acc m =>
      match acc with
      | none => some m
      | some b => if m.createdAt > b.createdAt then some m else some b)
    none

/-- One element of the conversation-list response. -/
structure ConvEntry where
  userId : UserId
  unreadCount : Nat
  lastMessage : Option Msg
deriving DecidableEq

/-- Sort key of the conversation comparator
`(a, b) => bTime - aTime` with `aTime = lastMessage ? createdAt : epoch`. -/
def convKey (e : ConvEntry) : Nat :=
  match e.lastMessage with
  | some m => m.createdAt
  | none => 0

/-- Descending comparator relation of the conversation sort. -/
def convGE (a b : ConvEntry) : Prop := convKey b ≤ convKey a

instance : DecidableRel convGE := fun a b =>
  inferInstanceAs (Decidable (convKey b ≤ convKey a))

instance : IsTotal ConvEntry convGE :=
  ⟨fun a b => Nat.le_total (convKey b) (convKey a)⟩

instance : IsTrans ConvEntry convGE :=
  ⟨fun _ _ _ h1 h2 => Nat.le_trans h2 h1⟩

/-- The `GET /conversations` route (src/routes/chat.js lines 192-252;
src/unnamed/part_002 lines 242-310 computes the same response with the
per-counterpart queries issued in parallel): build one entry per distinct
counterpart id, dropping ids whose User record is absent (`if (!user) return
null` then `filter(conv => conv !== null)`), and sort descending by
last-message time.  `convEntryFor` builds the entry for one counterpart id:
nothing when the User record is absent, otherwise the user, the unread count
and the pair's most recent message. -/
def convEntryFor (users : List UserRec) (msgs : List Msg) (p q : UserId) :
    Option ConvEntry :=
  match findUser users q with
  | none => none
  | some _ =>
    some { userId := q
           unreadCount :=
             (msgs.filter (fun m => m.sender == q && m.receiver == p && !m.isRead)).length
           lastMessage := lastMessageBetween msgs p q }

/-- The conversation-list response: one entry per distinct counterpart that
still has a User record, sorted descending by last-message time (the
comparator `(a, b) => bTime - aTime`, stable as JavaScript sort is). -/
def listConversations (users : List UserRec) (msgs : List Msg) (p : UserId) :
    List ConvEntry :=
  List.insertionSort convGE
    ((counterpartIds msgs p).filterMap (convEntryFor users msgs p))

/-- A key erased from an association list can no longer be looked up. -/
theorem alistLookup_erase_self (l : List (Nat × Nat)) (k : Nat) :
    alistLookup (alistErase l k) k = none := by
  unfold alistLookup alistErase
  rw [List.find?_filter]
  apply Option.map_eq_none'.mpr
  rw [List.find?_eq_none]
  intro x _
  simp only [bne_iff_ne, beq_iff_eq, decide_eq_true_eq, ne_eq]
  rintro ⟨h1, h2⟩
  exact h1 h2

/-- Insert-or-replace makes the inserted value the lookup result. -/
theorem alistLookup_set_self (l : List (Nat × Nat)) (k v : Nat) :
    alistLookup (alistSet l k v) k = some v := by
  unfold alistSet alistLookup
  rw [List.find?_append]
  have h : (alistErase l k).find? (fun p => p.1 == k) = none := by
    have h2 := alistLookup_erase_self l k
    unfold alistLookup at h2
    exact Option.map_eq_none'.mp h2
  rw [h]
  simp

/-- A demonstration (non-admin) principal with no FCM token. -/
def demoUser : UserRec := ⟨1, "Alice", "Smith", false, none⟩

/-- Lifecycle state after principal 1 authenticates on socket 1 and then
re-authenticates on socket 2 while socket 1 is still open. -/
def supersededState : Presence :=
  authenticate (authenticate Presence.empty demoUser 1) demoUser 2

/-- C1 fails on the code: with principal 1 freshly bound to connection 2,
the disconnect of the stale connection 1 does not leave that binding in
place — it deletes it, because the handler deletes `socket.userId`'s entry
unconditionally. -/
theorem C1_counterexample :
    directRoute supersededState 1 = some 2 ∧
    directRoute (disconnect supersededState 1) 1 = none := by
  exact ⟨rfl, rfl⟩

/-- C1 (amended): the disconnect handler removes the Presence Directory
binding of the disconnecting socket's principal unconditionally.  Whenever
socket `c` had authenticated as principal `p`, `disconnect st c` deletes
`p`'s `connectedUsers` entry even if the directory currently binds `p` to a
different, fresh connection; the still-points-at-this-handle guard the claim
describes is absent from all three handler revisions. -/
theorem C1_unbind_unconditional (st : Presence) (c : SocketId) (p : UserId)
    (h : alistLookup st.socketUser c = some p) :
    directRoute (disconnect st c) p = none := by
  unfold disconnect
  rw [h]
  unfold directRoute
  exact alistLookup_erase_self st.connectedUsers p

/-- Concrete instance of the amended C1 theorem. -/
theorem C1_witness :
    directRoute (disconnect supersededState 1) 1 = none :=
  C1_unbind_unconditional supersededState 1 1 rfl

/-- C2: both revisions of the Message schema declare exactly the fields
sender, receiver, content and createdAt; neither declares isDelivered,
deliveredAt, isRead or readAt, the delivery and read state fields the send
and mark-read handlers assign. -/
theorem C2_schema_declared_fields :
    declaredFieldsV1 = ["sender", "receiver", "content", "createdAt"] ∧
    declaredFieldsV2 = ["sender", "receiver", "content", "createdAt"] ∧
    handlerStateFields = ["isDelivered", "deliveredAt", "isRead", "readAt"] ∧
    "isDelivered" ∉ declaredFieldsV1 ∧ "deliveredAt" ∉ declaredFieldsV1 ∧
    "isRead" ∉ declaredFieldsV1 ∧ "readAt" ∉ declaredFieldsV1 ∧
    "isDelivered" ∉ declaredFieldsV2 ∧ "deliveredAt" ∉ declaredFieldsV2 ∧
    "isRead" ∉ declaredFieldsV2 ∧ "readAt" ∉ declaredFieldsV2 := by
  decide

/-- Spec-level reading of the character class `[A-Za-z0-9+/=]`: the
codepoint ranges 65-90 (`A`-`Z`), 97-122 (`a`-`z`) and 48-57 (`0`-`9`), plus
the three literal characters. -/
def inBase64Class (c : Char) : Prop :=
  (c.val ≥ 65 ∧ c.val ≤ 90) ∨ (c.val ≥ 97 ∧ c.val ≤ 122) ∨
  (c.val ≥ 48 ∧ c.val ≤ 57) ∨ c = '+' ∨ c = '/' ∨ c = '='

instance (c : Char) : Decidable (inBase64Class c) := by
  unfold inBase64Class
  infer_instance

/-- The translated validator character test agrees with the class. -/
theorem base64Char_iff (c : Char) : base64Char c = true ↔ inBase64Class c := by
  unfold base64Char inBase64Class
  simp only [Char.isAlpha, Char.isUpper, Char.isLower, Char.isDigit,
    Bool.or_eq_true, Bool.and_eq_true, decide_eq_true_eq]
  tauto

/-- The second revision admits a document exactly when its content is a
nonempty string over the base64 character class. -/
theorem saveAllowedV2_iff (m : Msg) :
    saveAllowedV2 m = true ↔
      (m.content.data ≠ [] ∧ ∀ c ∈ m.content.data, inBase64Class c) := by
  unfold saveAllowedV2 base64RegexTest
  rw [Bool.and_eq_true]
  constructor
  · rintro ⟨h1, h2⟩
    refine ⟨by simpa using h1, ?_⟩
    intro c hc
    exact (base64Char_iff c).mp (List.all_eq_true.mp h2 c hc)
  · rintro ⟨h1, h2⟩
    refine ⟨by simpa using h1, ?_⟩
    exact List.all_eq_true.mpr (fun c hc => (base64Char_iff c).mpr (h2 c hc))

/-- C10: under the Message-model revision that validates content, a document
may be saved only if its content is a nonempty string every character of
which lies in the class `[A-Za-z0-9+/=]`; content containing any character
outside the class (a space, in particular, so any typical chat text) is
rejected; and no length bound applies: the all-A string of every positive
length is accepted. -/
theorem C10_content_validation :
    (∀ m : Msg, saveAllowedV2 m = true ↔
      (m.content.data ≠ [] ∧ ∀ c ∈ m.content.data, inBase64Class c)) ∧
    (∀ m : Msg, (∃ c ∈ m.content.data, ¬ inBase64Class c) → saveAllowedV2 m = false) ∧
    (∀ n : Nat, base64RegexTest (String.mk (List.replicate (n + 1) 'A')) = true) := by
  refine ⟨saveAllowedV2_iff, ?_, ?_⟩
  · rintro m ⟨c, hc, hnc⟩
    cases h : saveAllowedV2 m with
    | false => rfl
    | true => exact absurd (((saveAllowedV2_iff m).mp h).2 c hc) hnc
  · intro n
    unfold base64RegexTest
    rw [Bool.and_eq_true]
    refine ⟨by simp [List.replicate_succ], ?_⟩
    rw [List.all_eq_true]
    intro c hc
    rw [List.eq_of_mem_replicate hc]
    decide

/-- Concrete instance of C10: the typical chat text "hello world" contains a
space and is rejected by the second revision's validator. -/
theorem C10_witness :
    saveAllowedV2 { sender := 1, receiver := 2, content := "hello world",
                    isDelivered := false, deliveredAt := none, isRead := false,
                    readAt := none, createdAt := 0 } = false :=
  C10_content_validation.2.1 _ ⟨' ', by decide, by decide⟩

/-- Sender record for the delivery-router scenarios. -/
def senderRec : UserRec := ⟨1, "Bob", "Jones", false, none⟩

/-- Receiver record with a registered FCM token. -/
def receiverRec : UserRec := ⟨2, "Carol", "Davis", false, some "tok"⟩

/-- Receiver record with no FCM token. -/
def receiverNoTok : UserRec := ⟨3, "Dave", "Evans", false, none⟩

/-- Receiver record with an FCM token, used offline. -/
def receiverOffTok : UserRec := ⟨4, "Eve", "Fox", false, some "tok4"⟩

/-- Lifecycle state in which principal 2 is online on socket 20. -/
def receiverOnline : Presence := ⟨[(2, 20)], [], [(20, 2)], [(20, 2)]⟩

/-- Environment with the token-holding receiver online and an empty store. -/
def envOnline : Env := ⟨[senderRec, receiverRec], receiverOnline, [], 5, true, true⟩

/-- Environment with the token-less receiver offline. -/
def envOffline : Env := ⟨[senderRec, receiverNoTok], Presence.empty, [], 5, true, true⟩

/-- Environment with the token-holding receiver offline. -/
def envOffline2 : Env := ⟨[senderRec, receiverOffTok], Presence.empty, [], 5, true, true⟩

/-- Environment in which the persistence layer fails. -/
def envSaveFail : Env := ⟨[senderRec, receiverNoTok], Presence.empty, [], 5, false, true⟩

/-- C3 fails on the optimized revision: principal 2 is online (presence entry
on socket 20) and holds an FCM token, yet a valid send dispatches exactly one
notification instead of zero, even though the message is marked delivered. -/
theorem C3_counterexample :
    directRoute envOnline.presence 2 = some 20 ∧
    (sendMessageOpt envOnline 10 1 2 "hi").messages.map (·.isDelivered) = [true] ∧
    (sendMessageOpt envOnline 10 1 2 "hi").fcmCalls.length = 1 :=
  ⟨rfl, rfl, rfl⟩

/-- C3 (amended): for every valid send whose receiver has a Presence
Directory entry, the first handler revision persists the message with
isDelivered = true and deliveredAt set and never invokes the notification
dispatcher, while the optimized revision persists the same delivered message
but invokes the dispatcher exactly once whenever the receiver has a
registered FCM token (and the sender record exists), regardless of the
receiver's presence. -/
theorem C3_online_delivery (env : Env) (callerSid rsid : SocketId)
    (senderId receiverId : UserId) (content : String) (receiver srec : UserRec)
    (hck : sendChecks env.users senderId receiverId content = .ok receiver)
    (hon : directRoute env.presence receiverId = some rsid)
    (hsave : env.saveOk = true)
    (hsender : findUser env.users senderId = some srec) :
    (sendMessageV1 env callerSid senderId receiverId content).messages =
      env.messages ++
        [{ sender := senderId, receiver := receiverId, content := jsTrim content,
           isDelivered := true, deliveredAt := some env.now, isRead := false,
           readAt := none, createdAt := env.now }] ∧
    (sendMessageV1 env callerSid senderId receiverId content).fcmCalls = [] ∧
    (sendMessageOpt env callerSid senderId receiverId content).messages =
      env.messages ++
        [{ sender := senderId, receiver := receiverId, content := jsTrim content,
           isDelivered := true, deliveredAt := some env.now, isRead := false,
           readAt := none, createdAt := env.now }] ∧
    (sendMessageOpt env callerSid senderId receiverId content).fcmCalls =
      (match receiver.fcmToken with
       | some tok => [⟨tok, srec.firstName ++ " " ++ srec.lastName,
                       jsSubstring (jsTrim content) 100⟩]
       | none => []) := by
  unfold sendMessageV1 sendMessageOpt
  rw [hck]
  cases hft : receiver.fcmToken <;> simp [hon, hsave, hsender, hft]

/-- Concrete instance of the amended C3 theorem: the first revision makes no
dispatch for an online receiver. -/
theorem C3_witness :
    (sendMessageV1 envOnline 10 1 2 "hi").fcmCalls = [] :=
  (C3_online_delivery envOnline 10 20 1 2 "hi" receiverRec senderRec
    rfl rfl rfl rfl).2.1

/-- C4 fails on the code: a valid send to the offline principal 3, who has no
registered FCM token, yields isDelivered = false but zero dispatcher
invocations instead of exactly one. -/
theorem C4_counterexample :
    directRoute envOffline.presence 3 = none ∧
    (sendMessageV1 envOffline 10 1 3 "hi").messages.map (·.isDelivered) = [false] ∧
    (sendMessageV1 envOffline 10 1 3 "hi").fcmCalls = [] :=
  ⟨rfl, rfl, rfl⟩

/-- C4 (amended): for every valid send whose receiver has no Presence
Directory entry, the message is persisted with isDelivered = false and
deliveredAt unset, and — provided the receiver has a registered FCM token and
the sender's user record exists — the notification dispatcher is invoked
exactly once with the receiver's registered token and a summary derived from
the sender's name plus the content truncated to 100 characters, in both
handler revisions. -/
theorem C4_offline_notification (env : Env) (callerSid : SocketId)
    (senderId receiverId : UserId) (content : String) (receiver srec : UserRec)
    (tok : String)
    (hck : sendChecks env.users senderId receiverId content = .ok receiver)
    (hoff : directRoute env.presence receiverId = none)
    (hsave : env.saveOk = true)
    (htok : receiver.fcmToken = some tok)
    (hsender : findUser env.users senderId = some srec) :
    (sendMessageV1 env callerSid senderId receiverId content).messages =
      env.messages ++
        [{ sender := senderId, receiver := receiverId, content := jsTrim content,
           isDelivered := false, deliveredAt := none, isRead := false,
           readAt := none, createdAt := env.now }] ∧
    (sendMessageV1 env callerSid senderId receiverId content).fcmCalls =
      [⟨tok, "New message from " ++ srec.firstName ++ " " ++ srec.lastName,
        jsSubstring (jsTrim content) 100⟩] ∧
    (sendMessageOpt env callerSid senderId receiverId content).messages =
      env.messages ++
        [{ sender := senderId, receiver := receiverId, content := jsTrim content,
           isDelivered := false, deliveredAt := none, isRead := false,
           readAt := none, createdAt := env.now }] ∧
    (sendMessageOpt env callerSid senderId receiverId content).fcmCalls =
      [⟨tok, srec.firstName ++ " " ++ srec.lastName,
        jsSubstring (jsTrim content) 100⟩] := by
  unfold sendMessageV1 sendMessageOpt
  rw [hck]
  simp [hoff, hsave, htok, hsender]

/-- Concrete instance of the amended C4 theorem: exactly one dispatch, to
the receiver's registered token. -/
theorem C4_witness :
    (sendMessageV1 envOffline2 10 1 4 "hi").fcmCalls.length = 1 := by
  rw [(C4_offline_notification envOffline2 10 1 4 "hi" receiverOffTok senderRec
    "tok4" rfl rfl rfl rfl rfl).2.1]
  rfl

/-- Whether a handler run told the caller the send went through: a
`new_message` emission targeted at the caller's socket. -/
def reportsSuccess (r : SendResult) (callerSid : SocketId) : Bool :=
  r.emissions.any (fun e =>
    match e with
    | .newMessage t _ => t == callerSid
    | _ => false)

/-- C5 fails on the optimized revision: with persistence unavailable, a valid
send still emits the message to the sender (a success report) before the save
settles — only afterwards does an error follow — and nothing is persisted. -/
theorem C5_counterexample :
    (sendMessageOpt envSaveFail 10 1 3 "hi").emissions =
      [Emission.newMessage 10
        { sender := 1, receiver := 3, content := "hi", isDelivered := false,
          deliveredAt := none, isRead := false, readAt := none, createdAt := 5 },
       Emission.errorEmit 10 "Message sent but failed to save"] ∧
    (sendMessageOpt envSaveFail 10 1 3 "hi").messages = [] :=
  ⟨rfl, rfl⟩

/-- C5 (amended): in the first revision the caller observes success exactly
when persistence succeeded, and a persistence failure leaves the store
unchanged; in the optimized revision the success report is emitted before
persistence completes, so the caller observes success even when persistence
fails (an error emission follows and nothing is stored); in both revisions
the notification outcome has no effect on any observable of the send. -/
theorem C5_persistence_vs_notification (env : Env) (b : Bool) (callerSid : SocketId)
    (senderId receiverId : UserId) (content : String) (receiver : UserRec)
    (hck : sendChecks env.users senderId receiverId content = .ok receiver) :
    reportsSuccess (sendMessageV1 env callerSid senderId receiverId content) callerSid
      = env.saveOk ∧
    (env.saveOk = false →
      (sendMessageV1 env callerSid senderId receiverId content).messages
        = env.messages) ∧
    reportsSuccess (sendMessageOpt env callerSid senderId receiverId content) callerSid
      = true ∧
    (env.saveOk = false →
      (sendMessageOpt env callerSid senderId receiverId content).messages
          = env.messages ∧
      Emission.errorEmit callerSid "Message sent but failed to save"
        ∈ (sendMessageOpt env callerSid senderId receiverId content).emissions) ∧
    sendMessageV1 { env with fcmOk := b } callerSid senderId receiverId content
      = sendMessageV1 env callerSid senderId receiverId content ∧
    sendMessageOpt { env with fcmOk := b } callerSid senderId receiverId content
      = sendMessageOpt env callerSid senderId receiverId content := by
  unfold sendMessageV1 sendMessageOpt reportsSuccess
  rw [hck]
  cases hs : env.saveOk <;>
    cases hroute : directRoute env.presence receiverId <;>
      simp [hs, hroute]

/-- Concrete instance of the amended C5 theorem: with persistence failing,
the first revision does not report success to the caller. -/
theorem C5_witness :
    reportsSuccess (sendMessageV1 envSaveFail 10 1 3 "hi") 10 = false :=
  (C5_persistence_vs_notification envSaveFail true 10 1 3 "hi" receiverNoTok rfl).1

/-- A filter with no matches means the predicate is false on every element. -/
theorem filter_len_zero_all_false {α : Type} (p : α → Bool) (l : List α)
    (h : (l.filter p).length = 0) : ∀ a ∈ l, p a = false := by
  intro a ha
  cases hpa : p a with
  | false => rfl
  | true =>
    have hm : a ∈ l.filter p := List.mem_filter.mpr ⟨ha, hpa⟩
    have hne := List.ne_nil_of_mem hm
    rw [List.length_eq_zero] at h
    exact absurd h hne

/-- When nothing matches the read-receipt filter, the batch update leaves
the store unchanged. -/
theorem markRead_update_id (msgs : List Msg) (senderId readerId : UserId) (now : Nat)
    (h : (msgs.filter (fun m => isUnreadFrom m senderId readerId)).length = 0) :
    (msgs.map (fun m =>
      if isUnreadFrom m senderId readerId then
        { m with isRead := true, readAt := some now }
      else m)) = msgs := by
  have hall := filter_len_zero_all_false _ _ h
  have hfun : ∀ m ∈ msgs,
      (if isUnreadFrom m senderId readerId then
        { m with isRead := true, readAt := some now }
      else m) = m := by
    intro m hm
    rw [hall m hm]
    simp
  calc (msgs.map _) = msgs.map id := List.map_congr_left hfun
  _ = msgs := List.map_id msgs

/-- C6 fails on the code: with zero matching unread messages, the handler
still emits — the first revision sends a count-0 read event to the online
counterpart (socket 20) and an unread-count update plus a marked-read
confirmation to the reader. -/
theorem C6_counterexample :
    (markReadV1 envOnline 30 1 2).modifiedCount = 0 ∧
    (markReadV1 envOnline 30 1 2).emissions =
      [Emission.messageRead 20 1 0, Emission.unreadCountUpdate 30 2 0,
       Emission.messagesMarkedRead 30 0] :=
  ⟨rfl, rfl⟩

/-- C6 (amended): mark-read with zero matching unread messages returns 0 and
transitions nothing, but emissions still occur.  First revision: the online
counterpart receives a count-0 read event, and the reader receives an
unread-count update (0) and a marked-read confirmation (count 0).  Optimized
revision: the reader receives the immediate marked-read confirmation (0) and
an unread-count update (0), the online counterpart the immediate count-0 read
event, and the accurate-count follow-ups are skipped. -/
theorem C6_markRead_zero (env : Env) (callerSid : SocketId)
    (readerId senderId : UserId)
    (hzero : (env.messages.filter (fun m => isUnreadFrom m senderId readerId)).length
      = 0) :
    (markReadV1 env callerSid readerId senderId).modifiedCount = 0 ∧
    (markReadV1 env callerSid readerId senderId).messages = env.messages ∧
    (markReadV1 env callerSid readerId senderId).emissions =
      (match directRoute env.presence senderId with
       | some ssid => [Emission.messageRead ssid readerId 0]
       | none => []) ++
      [Emission.unreadCountUpdate callerSid senderId 0,
       Emission.messagesMarkedRead callerSid 0] ∧
    (markReadOpt env callerSid readerId senderId).modifiedCount = 0 ∧
    (markReadOpt env callerSid readerId senderId).messages = env.messages ∧
    (markReadOpt env callerSid readerId senderId).emissions =
      [Emission.messagesMarkedRead callerSid 0] ++
      (match directRoute env.presence senderId with
       | some ssid => [Emission.messageRead ssid readerId 0]
       | none => []) ++
      [Emission.unreadCountUpdate callerSid senderId 0] := by
  have hid := markRead_update_id env.messages senderId readerId env.now hzero
  unfold markReadV1 markReadOpt
  cases hroute : directRoute env.presence senderId <;>
    simp [hroute, hzero, hid]

/-- Concrete instance of the amended C6 theorem: the optimized revision's
emissions on a zero-match mark-read with the counterpart online. -/
theorem C6_witness :
    (markReadOpt envOnline 30 1 2).emissions =
      [Emission.messagesMarkedRead 30 0, Emission.messageRead 20 1 0,
       Emission.unreadCountUpdate 30 2 0] := by
  rw [(C6_markRead_zero envOnline 30 1 2 rfl).2.2.2.2.2]
  rfl

/-- Membership in a Set.add result comes from the set or is the added
element. -/
theorem mem_setAdd {l : List Nat} {x y : Nat} (h : y ∈ setAdd l x) :
    y ∈ l ∨ y = x := by
  unfold setAdd at h
  by_cases hx : x ∈ l
  · rw [if_pos hx] at h
    exact Or.inl h
  · rw [if_neg hx] at h
    rcases List.mem_append.mp h with h1 | h1
    · exact Or.inl h1
    · exact Or.inr (List.mem_singleton.mp h1)

/-- Insert-or-replace preserves distinctness of the keys. -/
theorem alistSet_keys_nodup (l : List (Nat × Nat)) (k v : Nat)
    (h : (l.map Prod.fst).Nodup) : ((alistSet l k v).map Prod.fst).Nodup := by
  unfold alistSet alistErase
  rw [List.map_append]
  refine List.Nodup.append ?_ ?_ ?_
  · exact List.Nodup.sublist (List.Sublist.map Prod.fst (List.filter_sublist l)) h
  · simp
  · intro a ha hb
    simp only [List.map_cons, List.map_nil, List.mem_singleton] at hb
    subst hb
    rcases List.mem_map.mp ha with ⟨x, hx, hxk⟩
    have hf := (List.mem_filter.mp hx).2
    rw [hxk] at hf
    simp at hf

/-- C7 fails on the code: after principal 1 re-authenticates on socket 2,
the superseded socket 1 remains in principal 1's room, so the room-based
read-receipt emit of the HTTP mark-as-read route still reaches the old
connection even though the directory routes messages to socket 2. -/
theorem C7_counterexample :
    directRoute supersededState 1 = some 2 ∧
    markAsReadHttpReceiptTargets supersededState 1 = [1, 2] :=
  ⟨rfl, rfl⟩

/-- C7 (amended): re-authenticating principal `u` on a new socket atomically
replaces the directory binding (lookup returns the new socket, key
distinctness is preserved) and evicts the superseded socket from the admin
index, so direct socket-id routing targets only the new connection; but the
superseded socket's membership in the principal's room is preserved, so
room-based emissions (such as the HTTP read receipt) still reach it. -/
theorem C7_supersede (st : Presence) (u : UserRec) (prev sid : SocketId)
    (h0 : (st.connectedUsers.map Prod.fst).Nodup)
    (hprev : alistLookup st.connectedUsers u.id = some prev)
    (hne : prev ≠ sid) :
    directRoute (authenticate st u sid) u.id = some sid ∧
    ((authenticate st u sid).connectedUsers.map Prod.fst).Nodup ∧
    prev ∉ (authenticate st u sid).adminSockets ∧
    (prev ∈ roomMembers st u.id → prev ∈ roomMembers (authenticate st u sid) u.id) := by
  refine ⟨?_, ?_, ?_, ?_⟩
  · unfold authenticate directRoute
    exact alistLookup_set_self st.connectedUsers u.id sid
  · exact alistSet_keys_nodup st.connectedUsers u.id sid h0
  · intro hmem
    unfold authenticate at hmem
    rw [hprev] at hmem
    dsimp only at hmem
    rw [if_pos (bne_iff_ne.mpr hne)] at hmem
    cases hAdm : u.isAdmin
    · rw [hAdm, if_neg (by simp)] at hmem
      have hf := (List.mem_filter.mp hmem).2
      simp at hf
    · rw [hAdm, if_pos rfl] at hmem
      rcases mem_setAdd hmem with h1 | h1
      · have hf := (List.mem_filter.mp h1).2
        simp at hf
      · exact hne h1
  · intro hmem
    unfold roomMembers at hmem ⊢
    unfold authenticate
    dsimp only
    by_cases hr : (sid, u.id) ∈ st.rooms
    · rw [if_pos hr]
      exact hmem
    · rw [if_neg hr, List.filter_append, List.map_append]
      exact List.mem_append_left _ hmem

/-- Concrete instance of the amended C7 theorem: lookup returns the new
socket 2 and the superseded socket 1 is not in the admin index. -/
theorem C7_witness :
    directRoute supersededState 1 = some 2 ∧
    1 ∉ supersededState.adminSockets := by
  have h := C7_supersede (authenticate Presence.empty demoUser 1) demoUser 1 2
    (by decide) rfl (by decide)
  exact ⟨h.1, h.2.2.1⟩

/-- Membership in a Set.add result, as an equivalence. -/
theorem mem_setAdd_iff {l : List Nat} {x a : Nat} :
    a ∈ setAdd l x ↔ a ∈ l ∨ a = x := by
  constructor
  · exact mem_setAdd
  · rintro (h | rfl)
    · unfold setAdd
      by_cases hx : x ∈ l
      · rw [if_pos hx]; exact h
      · rw [if_neg hx]; exact List.mem_append_left _ h
    · unfold setAdd
      by_cases hx : a ∈ l
      · rw [if_pos hx]; exact hx
      · rw [if_neg hx]
        exact List.mem_append_right _ (List.mem_singleton.mpr rfl)

/-- Set.add preserves distinctness. -/
theorem nodup_setAdd {l : List Nat} {x : Nat} (h : l.Nodup) :
    (setAdd l x).Nodup := by
  unfold setAdd
  by_cases hx : x ∈ l
  · rw [if_pos hx]; exact h
  · rw [if_neg hx]
    refine List.Nodup.append h (by simp) ?_
    intro a ha hb
    rw [List.mem_singleton] at hb
    subst hb
    exact hx ha

/-- Folding Set.add accumulates exactly the union of the seed and the list. -/
theorem mem_foldl_setAdd (l : List Nat) :
    ∀ (acc : List Nat) (a : Nat), a ∈ l.foldl setAdd acc ↔ a ∈ acc ∨ a ∈ l := by
  induction l with
  | nil =>
    intro acc a
    simp
  | cons x xs ih =>
    intro acc a
    rw [List.foldl_cons, ih, mem_setAdd_iff]
    constructor
    · rintro ((h | rfl) | h)
      · exact Or.inl h
      · exact Or.inr (List.mem_cons_self _ _)
      · exact Or.inr (List.mem_cons_of_mem x h)
    · rintro (h | h)
      · exact Or.inl (Or.inl h)
      · rcases List.mem_cons.mp h with rfl | h2
        · exact Or.inl (Or.inr rfl)
        · exact Or.inr h2

/-- Folding Set.add over any list preserves distinctness of the seed. -/
theorem nodup_foldl_setAdd (l : List Nat) :
    ∀ acc : List Nat, acc.Nodup → (l.foldl setAdd acc).Nodup := by
  induction l with
  | nil =>
    intro acc h
    simpa using h
  | cons x xs ih =>
    intro acc h
    rw [List.foldl_cons]
    exact ih _ (nodup_setAdd h)

/-- Deduplication keeps exactly the elements of the input. -/
theorem jsDedup_mem (l : List Nat) (a : Nat) : a ∈ jsDedup l ↔ a ∈ l := by
  unfold jsDedup
  rw [mem_foldl_setAdd]
  simp

/-- Deduplication yields a duplicate-free list. -/
theorem jsDedup_nodup (l : List Nat) : (jsDedup l).Nodup := by
  unfold jsDedup
  exact nodup_foldl_setAdd l [] (by simp)

/-- The counterpart ids are exactly the principals that exchanged at least
one message with `p`, in either direction. -/
theorem counterpartIds_mem (msgs : List Msg) (p q : UserId) :
    q ∈ counterpartIds msgs p ↔
      ∃ m ∈ msgs, (m.sender = p ∧ m.receiver = q) ∨ (m.receiver = p ∧ m.sender = q) := by
  unfold counterpartIds
  rw [jsDedup_mem, List.mem_append]
  constructor
  · rintro (h | h)
    · rcases List.mem_map.mp h with ⟨m, hm, rfl⟩
      have hf := List.mem_filter.mp hm
      exact ⟨m, hf.1, Or.inl ⟨by simpa using hf.2, rfl⟩⟩
    · rcases List.mem_map.mp h with ⟨m, hm, rfl⟩
      have hf := List.mem_filter.mp hm
      exact ⟨m, hf.1, Or.inr ⟨by simpa using hf.2, rfl⟩⟩
  · rintro ⟨m, hm, (⟨h1, h2⟩ | ⟨h1, h2⟩)⟩
    · exact Or.inl (List.mem_map.mpr ⟨m, List.mem_filter.mpr ⟨hm, by simp [h1]⟩, h2⟩)
    · exact Or.inr (List.mem_map.mpr ⟨m, List.mem_filter.mpr ⟨hm, by simp [h1]⟩, h2⟩)

/-- A user lookup succeeds exactly when a record with that id exists. -/
theorem findUser_isSome (users : List UserRec) (q : UserId) :
    (findUser users q).isSome = true ↔ ∃ u ∈ users, u.id = q := by
  unfold findUser
  rw [List.find?_isSome]
  constructor
  · rintro ⟨u, hu, he⟩
    exact ⟨u, hu, by simpa using he⟩
  · rintro ⟨u, hu, he⟩
    exact ⟨u, hu, by simpa using he⟩

/-- What a successful entry construction yields. -/
theorem convEntryFor_some (users : List UserRec) (msgs : List Msg) (p q : UserId)
    (e : ConvEntry) (h : convEntryFor users msgs p q = some e) :
    e.userId = q ∧ e.lastMessage = lastMessageBetween msgs p q := by
  unfold convEntryFor at h
  cases hq : findUser users q with
  | none =>
    rw [hq] at h
    exact absurd h (by simp)
  | some u =>
    rw [hq] at h
    have he := Option.some.inj h
    subst he
    exact ⟨rfl, rfl⟩

/-- The user ids of the built entries are the counterpart ids that still
have a User record, in order. -/
theorem entries_map_userId (users : List UserRec) (msgs : List Msg) (p : UserId) :
    ∀ ids : List UserId,
      (ids.filterMap (convEntryFor users msgs p)).map (·.userId) =
        ids.filter (fun q => (findUser users q).isSome) := by
  intro ids
  induction ids with
  | nil => rfl
  | cons q ids ih =>
    rw [List.filterMap_cons, List.filter_cons]
    cases hq : findUser users q with
    | none =>
      simp only [convEntryFor, hq, Option.isSome_none]
      simpa using ih
    | some u =>
      simp only [convEntryFor, hq, Option.isSome_some]
      simp [ih]

/-- The maximum-picking fold cannot forget a seeded candidate. -/
theorem foldl_pickNewer_isSome (l : List Msg) :
    ∀ b : Msg,
      (l.foldl (fun acc m =>
        match acc with
        | none => some m
        | some b0 => if m.createdAt > b0.createdAt then some m else some b0)
        (some b)).isSome = true := by
  induction l with
  | nil =>
    intro b
    rfl
  | cons m rest ih =>
    intro b
    rw [List.foldl_cons]
    dsimp only
    by_cases h : m.createdAt > b.createdAt
    · rw [if_pos h]
      exact ih m
    · rw [if_neg h]
      exact ih b

/-- A nonempty pair history always yields a latest message. -/
theorem lastMessageBetween_isSome (msgs : List Msg) (p q : UserId)
    (h : msgs.filter (betweenPair p q) ≠ []) :
    (lastMessageBetween msgs p q).isSome = true := by
  unfold lastMessageBetween
  cases hf : msgs.filter (betweenPair p q) with
  | nil => exact absurd hf h
  | cons m rest =>
    rw [List.foldl_cons]
    exact foldl_pickNewer_isSome rest m

/-- A counterpart of `p` has at least one message matching the pair query. -/
theorem counterpart_pair_nonempty (msgs : List Msg) (p q : UserId)
    (h : q ∈ counterpartIds msgs p) :
    msgs.filter (betweenPair p q) ≠ [] := by
  rcases (counterpartIds_mem msgs p q).mp h with ⟨m, hm, hcase⟩
  have hb : betweenPair p q m = true := by
    unfold betweenPair
    rcases hcase with ⟨h1, h2⟩ | ⟨h1, h2⟩
    · simp [h1, h2]
    · simp [h1, h2]
  exact List.ne_nil_of_mem (List.mem_filter.mpr ⟨hm, hb⟩)

/-- A message whose sender (principal 9) has no User record.  Such stores are
reachable: a socket authenticated before an account deletion can still send,
since the send handler checks only the receiver's existence. -/
def orphanMsg : Msg := ⟨9, 1, "aGk=", false, none, false, none, 3⟩

/-- C8 fails on the code: principal 9 exchanged a message with principal 1,
yet `GET /conversations` for principal 1 returns no entry for counterpart 9,
because both revisions drop counterparts whose User record is absent. -/
theorem C8_counterexample :
    counterpartIds [orphanMsg] 1 = [9] ∧
    listConversations [demoUser] [orphanMsg] 1 = [] :=
  ⟨rfl, rfl⟩

/-- C8 (amended): `listConversations(p)` returns exactly one entry for each
counterpart with whom `p` has at least one message in either direction and
whose User record is still present (counterparts whose record is absent are
dropped), with no duplicates, ordered descending by the creation timestamp
of the pair's most recent message; every returned entry carries a last
message, so the sort-missing-last-last clause is vacuous. -/
theorem C8_conversations (users : List UserRec) (msgs : List Msg) (p : UserId) :
    (∀ q : UserId,
      q ∈ (listConversations users msgs p).map (·.userId) ↔
        ((∃ m ∈ msgs, (m.sender = p ∧ m.receiver = q) ∨ (m.receiver = p ∧ m.sender = q)) ∧
         ∃ u ∈ users, u.id = q)) ∧
    ((listConversations users msgs p).map (·.userId)).Nodup ∧
    (listConversations users msgs p).Pairwise convGE ∧
    (∀ e : ConvEntry, e ∈ listConversations users msgs p →
      e.lastMessage.isSome = true) := by
  have hperm : List.Perm (listConversations users msgs p)
      ((counterpartIds msgs p).filterMap (convEntryFor users msgs p)) := by
    unfold listConversations
    exact List.perm_insertionSort convGE _
  have hpermMap := hperm.map (·.userId)
  have hmapeq := entries_map_userId users msgs p (counterpartIds msgs p)
  have hnd : (counterpartIds msgs p).Nodup := by
    unfold counterpartIds
    exact jsDedup_nodup _
  refine ⟨?_, ?_, ?_, ?_⟩
  · intro q
    rw [hpermMap.mem_iff, hmapeq]
    simp only [List.mem_filter, counterpartIds_mem, findUser_isSome]
  · rw [hpermMap.nodup_iff, hmapeq]
    exact hnd.filter _
  · exact List.sorted_insertionSort convGE _
  · intro e he
    have he2 := hperm.mem_iff.mp he
    rcases List.mem_filterMap.mp he2 with ⟨q, hq, hsome⟩
    obtain ⟨hid, hlast⟩ := convEntryFor_some users msgs p q e hsome
    rw [hlast]
    exact lastMessageBetween_isSome msgs p q (counterpart_pair_nonempty msgs p q hq)

/-- A two-message history between principals 1 and 2. -/
def demoUsersPair : List UserRec := [demoUser, receiverRec]

/-- Messages in both directions between principals 1 and 2, the later one
unread by principal 1. -/
def demoMsgsPair : List Msg :=
  [⟨1, 2, "aGk=", false, none, false, none, 4⟩,
   ⟨2, 1, "eQ==", false, none, false, none, 7⟩]

/-- Concrete instance of the amended C8 theorem: the single conversation
entry of principal 1 carries a last message. -/
theorem C8_witness :
    ({ userId := 2, unreadCount := 1,
       lastMessage := some ⟨2, 1, "eQ==", false, none, false, none, 7⟩ } :
      ConvEntry).lastMessage.isSome = true :=
  (C8_conversations demoUsersPair demoMsgsPair 1).2.2.2 _ (by decide)

/-- Batch-updated messages never match the unread filter again. -/
theorem atomic_second_count_zero (msgs : List Msg) (s r : UserId) (t : Nat) :
    ((markReadBatchAtomic msgs s r t).2.filter
      (fun m => isUnreadFrom m s r)).length = 0 := by
  unfold markReadBatchAtomic
  dsimp only
  rw [List.length_eq_zero, List.filter_eq_nil_iff]
  intro m hm
  rcases List.mem_map.mp hm with ⟨m0, hm0, rfl⟩
  by_cases h : isUnreadFrom m0 s r
  · rw [if_pos h]
    simp [isUnreadFrom]
  · rw [if_neg h]
    simpa using h

/-- The filtered enumeration has as many hits as the plain filter. -/
theorem enumFrom_filter_length (msgs : List Msg) (pd : Msg → Bool) :
    ∀ i : Nat,
      ((List.enumFrom i msgs).filter (fun im => pd im.2)).length =
        (msgs.filter pd).length := by
  induction msgs with
  | nil =>
    intro i
    rfl
  | cons m rest ih =>
    intro i
    rw [List.enumFrom_cons, List.filter_cons, List.filter_cons]
    by_cases h : pd m
    · simp only [h]
      simp [ih]
    · simp only [h]
      simp [ih]

/-- The optimized HTTP mark-as-read reports as many ids as are unread at its
read phase. -/
theorem findUnreadIds_length (msgs : List Msg) (s r : UserId) :
    (findUnreadIds msgs s r).length =
      (msgs.filter (fun m => isUnreadFrom m s r)).length := by
  unfold findUnreadIds
  rw [List.length_map, List.enum]
  exact enumFrom_filter_length msgs (fun m => isUnreadFrom m s r) 0

/-- A store with exactly one unread message from 2 to 1. -/
def unreadDemoMsg : Msg := ⟨2, 1, "aGk=", true, some 4, false, none, 4⟩

/-- C9 fails on the optimized HTTP mark-as-read: with one unread message,
the interleaving in which both calls run their id query before either
update runs makes both report count 1, so the counts sum to 2, not to the
1 message unread before either call. -/
theorem C9_counterexample :
    ([unreadDemoMsg].filter (fun m => isUnreadFrom m 2 1)).length = 1 ∧
    (markReadRace [unreadDemoMsg] 2 1 9).1 +
      (markReadRace [unreadDemoMsg] 2 1 9).2.1 = 2 :=
  ⟨rfl, rfl⟩

/-- C9 (amended): the socket mark-read handlers perform the single
conditional batch update whose filter itself requires `isRead: false`; for
that atomic form, two calls over the same pair in either serialization
return counts summing to the number of messages unread before either ran.
The optimized HTTP mark-as-read route instead finds ids and then updates by
id, responding with the found count before the update, so the
both-reads-first interleaving makes each call report the full pre-update
count — double-counting whenever any message was unread. -/
theorem C9_markRead_concurrency (env : Env) (callerSid : SocketId)
    (readerId senderId : UserId) (msgs : List Msg) (t1 t2 t3 : Nat) :
    (markReadV1 env callerSid readerId senderId).modifiedCount
        = (markReadBatchAtomic env.messages senderId readerId env.now).1 ∧
    (markReadV1 env callerSid readerId senderId).messages
        = (markReadBatchAtomic env.messages senderId readerId env.now).2 ∧
    (markReadOpt env callerSid readerId senderId).modifiedCount
        = (markReadBatchAtomic env.messages senderId readerId env.now).1 ∧
    (markReadBatchAtomic msgs senderId readerId t1).1 +
      (markReadBatchAtomic (markReadBatchAtomic msgs senderId readerId t1).2
        senderId readerId t2).1 =
      (msgs.filter (fun m => isUnreadFrom m senderId readerId)).length ∧
    (markReadRace msgs senderId readerId t3).1 +
        (markReadRace msgs senderId readerId t3).2.1 =
      2 * (msgs.filter (fun m => isUnreadFrom m senderId readerId)).length := by
  refine ⟨rfl, rfl, rfl, ?_, ?_⟩
  · have h0 := atomic_second_count_zero msgs senderId readerId t1
    unfold markReadBatchAtomic at h0 ⊢
    dsimp only at h0 ⊢
    omega
  · have hl := findUnreadIds_length msgs senderId readerId
    unfold markReadRace
    dsimp only
    omega
